import Mathlib

/-!
Shallow embedding of the lib26-frontend API test console
(`src/unnamed/part_001`, a single React component) together with the
browser built-ins it relies on.

Decoded JSON values are modelled by the inductive `Json`; JavaScript
numbers produced by `parseInt` are modelled by `Option Int`, with `none`
playing the role of `NaN` (the only non-finite value the parsing code
can produce on the inputs the claims are about).  Stateful React code
(`useState` setters, the `run` helper) is modelled by explicit state
passing over a `ConsoleState` record; a `fetch` / `JSON.parse` failure
is modelled by `Except String`, the error carrying the message text.
-/

namespace Lib26

/-- A decoded JSON value (the result of `res.json()`), also used for the
`body` field of the result envelope: a plain-text body is a `.str`. -/
inductive Json where
  | null
  | bool (b : Bool)
  | num (n : Int)
  | str (s : String)
  | arr (elems : List Json)
  | obj (fields : List (String × Json))

/-- JavaScript property access `x.k` on a decoded value: only plain
objects expose the fields the guards look at; on every other value the
access yields `undefined`, modelled as `none`. -/
def getField (x : Json) (k : String) : Option Json :=
  match x with
  | .obj fields => fields.lookup k
  | _ => none

/-- `typeof v === "number"` applied to the (possibly absent) field `v`. -/
def isNumberField (v : Option Json) : Bool :=
  match v with
  | some (.num _) => true
  | _ => false

/-- `Array.isArray(v)` applied to the (possibly absent) field `v`. -/
def isArrayField (v : Option Json) : Bool :=
  match v with
  | some (.arr _) => true
  | _ => false

/-- `isRecord` from the source: `typeof x === "object" && x !== null`.
In JavaScript both plain objects and arrays have `typeof` `"object"`;
`null` does as well but is excluded explicitly. -/
def isRecord (x : Json) : Bool :=
  match x with
  | .null => false
  | .obj _ => true
  | .arr _ => true
  | _ => false

/-- `hasItems` from the source:
`isRecord(x) && Array.isArray((x as Record<string, unknown>).items)`. -/
def hasItems (x : Json) : Bool :=
  isRecord x && isArrayField (getField x "items")

/-- `isPaged` from the source: early `false` when `!isRecord(x)`, then
the conjunction of the three `typeof ... === "number"` checks and the
`Array.isArray(o.items)` check. -/
def isPaged (x : Json) : Bool :=
  if !isRecord x then false
  else
    isNumberField (getField x "total") &&
    isNumberField (getField x "page") &&
    isNumberField (getField x "pageSize") &&
    isArrayField (getField x "items")

/-- `needle` is a prefix of `hay` (character lists). -/
def isPrefixList : List Char → List Char → Bool
  | [], _ => true
  | _ :: _, [] => false
  | a :: as, b :: bs => a == b && isPrefixList as bs

/-- `needle` occurs contiguously somewhere in `hay` (character lists). -/
def containsSub : List Char → List Char → Bool
  | [], needle => needle.isEmpty
  | h :: t, needle => isPrefixList needle (h :: t) || containsSub t needle

/-- Model of the JavaScript built-in `s.includes(sub)`, used by
`apiFetch` on the content-type header (and below to state what a log
block contains). -/
def strIncludes (s sub : String) : Bool :=
  containsSub s.toList sub.toList

/-- A JavaScript number as produced by `parseInt(·, 10)`: either an
exact integer or `NaN`, modelled as `none`. -/
abbrev JSNum := Option Int

/-- Model of `Number.isFinite`: `NaN` is not finite, every integer
value is. -/
def isFiniteNum (n : JSNum) : Bool := n.isSome

/-- Model of the JavaScript comparison `n > 0`: any comparison with
`NaN` is false. -/
def numGt0 (n : JSNum) : Bool :=
  match n with
  | some v => decide (0 < v)
  | none => false

/-- Model of the JavaScript comparison `n <= 0` (used by the Process
One button's disabled condition): any comparison with `NaN` is false. -/
def numLe0 (n : JSNum) : Bool :=
  match n with
  | some v => decide (v ≤ 0)
  | none => false

/-- Numeric value of a decimal digit character. -/
def digitVal (c : Char) : Nat := c.toNat - 48

/-- Value of a list of decimal digit characters, most significant
first. -/
def natOfDigits (ds : List Char) : Nat :=
  ds.foldl (fun acc c => acc * 10 + digitVal c) 0

/-- Maximal leading run of decimal digits, or `none` when there is no
leading digit (which makes `parseInt` return `NaN`). -/
def parseDigits (cs : List Char) : Option Nat :=
  let ds := cs.takeWhile Char.isDigit
  if ds.isEmpty then none else some (natOfDigits ds)

/-- Model of the JavaScript built-in `parseInt(s, 10)`: skip leading
whitespace, accept an optional sign, read the maximal run of decimal
digits and ignore everything after it; `NaN` (`none`) when no digit is
read.  Numbers are kept exact: the float rounding JavaScript would
apply to astronomically long digit strings is outside the model. -/
def parseIntJS (s : List Char) : JSNum :=
  match s.dropWhile Char.isWhitespace with
  | '-' :: rest => (parseDigits rest).map (fun n => -(n : Int))
  | '+' :: rest => (parseDigits rest).map (fun n => (n : Int))
  | cs => (parseDigits cs).map (fun n => (n : Int))

/-- Model of the JavaScript built-in `s.split(",")` on character
lists: `""` yields `[""]`, adjacent commas yield empty entries. -/
def splitOnComma : List Char → List (List Char)
  | [] => [[]]
  | c :: t =>
    if c == ',' then [] :: splitOnComma t
    else
      match splitOnComma t with
      | [] => [[c]]
      | h :: rt => (c :: h) :: rt

/-- Model of the JavaScript built-in `s.trim()`: strip whitespace from
both ends. -/
def jsTrim (cs : List Char) : List Char :=
  ((cs.dropWhile Char.isWhitespace).reverse.dropWhile Char.isWhitespace).reverse

/-- `selectedIdList` from the source:
`selectedIds.split(",").map(s => parseInt(s.trim(), 10)).filter(n => Number.isFinite(n) && n > 0)`. -/
def selectedIdList (selectedIds : String) : List JSNum :=
  ((splitOnComma selectedIds.toList).map (fun s => parseIntJS (jsTrim s))).filter
    (fun n => isFiniteNum n && numGt0 n)

mutual

/-- Model of the built-in `JSON.stringify` (string escaping and the
2-space pretty-printing of the source's `JSON.stringify(body, null, 2)`
are abstracted to a compact rendering; no claim depends on the exact
layout, only on which value is rendered). -/
def jsonStringify : Json → String
  | .null => "null"
  | .bool true => "true"
  | .bool false => "false"
  | .num n => toString n
  | .str s => "\"" ++ s ++ "\""
  | .arr l => "[" ++ stringifyElems l ++ "]"
  | .obj l => "\x7b" ++ stringifyFields l ++ "\x7d"

/-- Comma-separated rendering of array elements. -/
def stringifyElems : List Json → String
  | [] => ""
  | [x] => jsonStringify x
  | x :: xs => jsonStringify x ++ "," ++ stringifyElems xs

/-- Comma-separated rendering of object fields. -/
def stringifyFields : List (String × Json) → String
  | [] => ""
  | [(k, v)] => "\"" ++ k ++ "\":" ++ jsonStringify v
  | (k, v) :: xs => "\"" ++ k ++ "\":" ++ jsonStringify v ++ "," ++ stringifyFields xs

end

/-- `formatBody` from the source: a string body is returned as is
(`typeof body === "string"`), anything else is rendered with
`JSON.stringify` (whose catch branch is unreachable on `Json` values,
which are finite trees). -/
def formatBody (body : Json) : String :=
  match body with
  | .str s => s
  | b => jsonStringify b

/-- The observable part of a `fetch` response: its status code, the
value of `res.headers.get("content-type")` (`none` when the header is
absent, which the source turns into `""` via `|| ""`), and the raw
payload text that `res.text()` would return and `res.json()` would
parse. -/
structure Response where
  status : Nat
  contentType : Option String
  bodyText : String

/-- Model of the `Response.ok` built-in of the Fetch standard: the
status is in the inclusive range 200–299. -/
def Response.okFlag (res : Response) : Bool :=
  decide (200 ≤ res.status) && decide (res.status ≤ 299)

/-- `ApiResult` from the source: the uniform result envelope
`{ ok: boolean; status: number; body: unknown }`.  A plain-text body is
a `.str`; a parsed JSON body is an arbitrary `Json`. -/
structure ApiResult where
  ok : Bool
  status : Nat
  body : Json

/-- `apiFetch` from the source, given the response the network call
produced.  `JSON.parse` (hidden inside `res.json()`) is a browser
built-in, so it is passed in as a parameter `parse`; `parse t = none`
means parsing `t` throws a `SyntaxError`, which `apiFetch` does not
catch, modelled by `Except.error`.  The request-building side
(header merge, `credentials: "include"`) has no bearing on the
envelope and is not modelled. -/
def apiFetch (parse : String → Option Json) (res : Response) :
    Except String ApiResult :=
  let ct := res.contentType.getD ""
  if strIncludes ct "application/json" then
    match parse res.bodyText with
    | some j => .ok { ok := res.okFlag, status := res.status, body := j }
    | none => .error "SyntaxError: Unexpected token in JSON"
  else
    .ok { ok := res.okFlag, status := res.status, body := .str res.bodyText }

/-- The `useState` cells of the `App` component that the claims are
about.  `files` is the size of the chosen `FileList` (`none` = the
JavaScript `null`); `page`, `pageSize` and `processId` hold `parseInt`
results and can therefore be `NaN`. -/
structure ConsoleState where
  log : String
  busy : Bool
  username : String
  password : String
  q : String
  page : JSNum
  pageSize : JSNum
  books : List Json
  files : Option Nat
  processId : JSNum
  selectedIds : String
  searchQ : String
  searchItems : List Json

/-- The text block `appendLog` builds for a successful envelope:
`` `\n=== ${title} ===\nStatus: ${r.status}\nBody:\n${formatBody(r.body)}\n` ``. -/
def logEntry (title : String) (r : ApiResult) : String :=
  "\n=== " ++ title ++ " ===\nStatus: " ++ toString r.status ++ "\nBody:\n"
    ++ formatBody r.body ++ "\n"

/-- `appendLog` from the source: prepend the block to the previous log
(`setLog(prev => text + prev)`). -/
def appendLog (title : String) (r : ApiResult) (st : ConsoleState) :
    ConsoleState :=
  { st with log := logEntry title r ++ st.log }

/-- The error block `run` builds in its catch clause:
`` `\n=== ${title} ERROR ===\n${msg}\n` ``. -/
def errorEntry (title msg : String) : String :=
  "\n=== " ++ title ++ " ERROR ===\n" ++ msg ++ "\n"

/-- The `setBusy(true)` an action performs before awaiting its body. -/
def runStart (st : ConsoleState) : ConsoleState :=
  { st with busy := true }

/-- `run` from the source.  The action body `fn` may update state
itself (the source's `setBooks` / `setSearchItems` closures) and
returns the envelope, or throws with a message (`e.message` /
`String(e)` — the message extraction of the catch clause is part of
the model's error type).  On return the block is appended; on throw the
error block is prepended instead; `finally` clears the busy flag on
both paths. -/
def run (title : String)
    (fn : ConsoleState → Except String (ConsoleState × ApiResult))
    (st : ConsoleState) : ConsoleState :=
  let st1 := runStart st
  match fn st1 with
  | .ok (st2, r) => { appendLog title r st2 with busy := false }
  | .error msg => { st1 with log := errorEntry title msg ++ st1.log, busy := false }

/-- `r.body.items` under a guard that has established `items` is an
array. -/
def itemsOf (j : Json) : List Json :=
  match getField j "items" with
  | some (.arr l) => l
  | _ => []

/-- The Load Books `onClick` body: await `apiFetch`, then
`if (r.ok && isPaged(r.body)) setBooks(r.body.items); return r`.  The
response the network produced is a parameter. -/
def loadBooksAction (parse : String → Option Json) (res : Response)
    (st : ConsoleState) : Except String (ConsoleState × ApiResult) := do
  let r ← apiFetch parse res
  let st1 := if r.ok && isPaged r.body then { st with books := itemsOf r.body } else st
  return (st1, r)

/-- The Search (GET) / Search (POST) `onClick` bodies: both await
`apiFetch` (they differ only in the request they build, which is
outside the envelope model), then
`if (r.ok && hasItems(r.body)) setSearchItems(r.body.items); return r`. -/
def searchAction (parse : String → Option Json) (res : Response)
    (st : ConsoleState) : Except String (ConsoleState × ApiResult) := do
  let r ← apiFetch parse res
  let st1 :=
    if r.ok && hasItems r.body then { st with searchItems := itemsOf r.body } else st
  return (st1, r)

/-- `disabled={busy}` of the Test /api/health button. -/
def healthDisabled (st : ConsoleState) : Bool := st.busy

/-- `disabled={busy}` of the Login button. -/
def loginDisabled (st : ConsoleState) : Bool := st.busy

/-- `disabled={busy}` of the Me button. -/
def meDisabled (st : ConsoleState) : Bool := st.busy

/-- `disabled={busy}` of the Logout button. -/
def logoutDisabled (st : ConsoleState) : Bool := st.busy

/-- `disabled={busy}` of the Load Books button. -/
def loadBooksDisabled (st : ConsoleState) : Bool := st.busy

/-- `disabled={busy || !files || files.length === 0}` of the Upload
button (`!files` is the JavaScript falsiness of `null`). -/
def uploadDisabled (st : ConsoleState) : Bool :=
  st.busy || st.files.isNone || (st.files.getD 0 == 0)

/-- `disabled={busy || processId <= 0}` of the Process One button. -/
def processOneDisabled (st : ConsoleState) : Bool :=
  st.busy || numLe0 st.processId

/-- `disabled={busy || selectedIdList.length === 0}` of the Process
Selected button. -/
def processSelectedDisabled (st : ConsoleState) : Bool :=
  st.busy || ((selectedIdList st.selectedIds).length == 0)

/-- `disabled={busy || searchQ.trim().length === 0}` of the Search
(GET) button. -/
def searchGetDisabled (st : ConsoleState) : Bool :=
  st.busy || ((jsTrim st.searchQ.toList).length == 0)

/-- `disabled={busy || searchQ.trim().length === 0}` of the Search
(POST) button. -/
def searchPostDisabled (st : ConsoleState) : Bool :=
  st.busy || ((jsTrim st.searchQ.toList).length == 0)

/-- `disabled={busy}` of the Load Stats button. -/
def statsDisabled (st : ConsoleState) : Bool := st.busy

/-- A concrete console state used to instantiate universally quantified
theorems on explicit inputs. -/
def sampleState : ConsoleState :=
  { log := "old log", busy := false, username := "admin", password := "",
    q := "", page := some 1, pageSize := some 20, books := [Json.num 7],
    files := none, processId := some 0, selectedIds := "",
    searchQ := "", searchItems := [Json.num 9] }

/-- `sampleState` with the busy flag raised. -/
def busyState : ConsoleState := { sampleState with busy := true }

/-! ### Helper lemmas about the substring-containment model -/

theorem isPrefixList_extend (n : List Char) :
    ∀ m r, isPrefixList n m = true → isPrefixList n (m ++ r) = true := by
  induction n with
  | nil => intro m r _; rfl
  | cons a as ih =>
    intro m r h
    cases m with
    | nil => simp [isPrefixList] at h
    | cons b bs =>
      simp only [isPrefixList, Bool.and_eq_true] at h ⊢
      exact ⟨h.1, ih bs r h.2⟩

theorem isPrefixList_refl (n : List Char) : isPrefixList n n = true := by
  induction n with
  | nil => rfl
  | cons a as ih => simp [isPrefixList, ih]

theorem containsSub_of_pref_list (n h : List Char)
    (hp : isPrefixList n h = true) : containsSub h n = true := by
  cases h with
  | nil =>
    cases n with
    | nil => rfl
    | cons a as => simp [isPrefixList] at hp
  | cons c t => simp [containsSub, hp]

theorem containsSub_mono_left (a : List Char) :
    ∀ b n, containsSub b n = true → containsSub (a ++ b) n = true := by
  induction a with
  | nil => intro b n h; simpa using h
  | cons c t ih =>
    intro b n h
    simp only [List.cons_append, containsSub, Bool.or_eq_true]
    exact Or.inr (ih b n h)

theorem containsSub_nil_sub (h : List Char) : containsSub h [] = true := by
  cases h with
  | nil => rfl
  | cons c t => simp [containsSub, isPrefixList]

theorem containsSub_mono_right (m : List Char) :
    ∀ r n, containsSub m n = true → containsSub (m ++ r) n = true := by
  induction m with
  | nil =>
    intro r n h
    simp only [containsSub, List.isEmpty_iff] at h
    subst h
    simpa using containsSub_nil_sub r
  | cons c t ih =>
    intro r n h
    simp only [containsSub, Bool.or_eq_true] at h
    simp only [List.cons_append, containsSub, Bool.or_eq_true]
    rcases h with h | h
    · exact Or.inl (by simpa using isPrefixList_extend n (c :: t) r h)
    · exact Or.inr (ih r n h)

theorem containsSub_self_append (n r : List Char) :
    containsSub (n ++ r) n = true :=
  containsSub_of_pref_list n (n ++ r) (isPrefixList_extend n n r (isPrefixList_refl n))

theorem toList_append (a b : String) : (a ++ b).toList = a.toList ++ b.toList := by
  simp [String.toList, String.data_append]

theorem errorEntry_has_error_marker (title msg : String) :
    strIncludes (errorEntry title msg) "ERROR" = true := by
  simp only [errorEntry, strIncludes, toList_append, List.append_assoc]
  apply containsSub_mono_left
  apply containsSub_mono_left
  apply containsSub_mono_right
  decide

theorem errorEntry_has_msg (title msg : String) :
    strIncludes (errorEntry title msg) msg = true := by
  simp only [errorEntry, strIncludes, toList_append, List.append_assoc]
  apply containsSub_mono_left
  apply containsSub_mono_left
  apply containsSub_mono_left
  exact containsSub_self_append _ _

theorem logEntry_has_body (title : String) (r : ApiResult) :
    strIncludes (logEntry title r) (formatBody r.body) = true := by
  simp only [logEntry, strIncludes, toList_append, List.append_assoc]
  apply containsSub_mono_left
  apply containsSub_mono_left
  apply containsSub_mono_left
  apply containsSub_mono_left
  apply containsSub_mono_left
  exact containsSub_self_append _ _

/-! ### Claim theorems -/

/-- C1: for every response handled by `apiFetch`, if the declared
content-type header contains `"application/json"` then the envelope's
body is the JSON-parsed structured value of the response text, and
otherwise the envelope's body is the raw response text, unmodified. -/
theorem apiFetch_decode_by_content_type (parse : String → Option Json)
    (res : Response) :
    (strIncludes (res.contentType.getD "") "application/json" = true →
      ∀ j, parse res.bodyText = some j →
        apiFetch parse res = .ok ⟨res.okFlag, res.status, j⟩) ∧
    (strIncludes (res.contentType.getD "") "application/json" = false →
      apiFetch parse res = .ok ⟨res.okFlag, res.status, .str res.bodyText⟩) := by
  constructor
  · intro hct j hj
    simp [apiFetch, hct, hj]
  · intro hct
    simp [apiFetch, hct]

/-- Instantiation of C1 on concrete responses: a JSON content type with
a parsable body, and a plain-text content type. -/
theorem apiFetch_decode_by_content_type_witness :
    apiFetch (fun _ => some (Json.obj [("a", Json.num 1)]))
        ⟨200, some "application/json; charset=utf-8", "ignored"⟩ =
      .ok ⟨true, 200, Json.obj [("a", Json.num 1)]⟩ ∧
    apiFetch (fun _ => some Json.null) ⟨404, some "text/plain", "hello"⟩ =
      .ok ⟨false, 404, Json.str "hello"⟩ :=
  ⟨(apiFetch_decode_by_content_type _ _).1 (by decide) _ rfl,
   (apiFetch_decode_by_content_type _ _).2 (by decide)⟩

/-- C2: the `ok` field of the envelope returned by `apiFetch` is true
iff the status code is in [200,299]; it is determined by the status
alone, independent of any application-level success field inside the
body. -/
theorem apiFetch_ok_iff_status (parse : String → Option Json)
    (res : Response) (r : ApiResult)
    (h : apiFetch parse res = .ok r) :
    r.ok = true ↔ 200 ≤ res.status ∧ res.status ≤ 299 := by
  have hok : r.ok = res.okFlag := by
    simp only [apiFetch] at h
    split at h
    · split at h
      · cases h; rfl
      · cases h
    · cases h; rfl
  rw [hok]
  simp [Response.okFlag]

/-- Instantiation of C2 on a concrete response with status 204. -/
theorem apiFetch_ok_iff_status_witness :
    (ApiResult.ok ⟨true, 204, Json.str "done"⟩ = true ↔ 200 ≤ 204 ∧ 204 ≤ 299) :=
  apiFetch_ok_iff_status (fun _ => some Json.null) ⟨204, none, "done"⟩
    ⟨true, 204, Json.str "done"⟩ rfl

/-- C3: `isPaged x` is true iff `x` is an object-like value whose
`total`, `page` and `pageSize` fields are numbers and whose `items`
field is an array; in particular
`isPaged {total:1, page:1, pageSize:20, items:[]} = true` and
`isPaged {items:[]} = false`. -/
theorem isPaged_characterization :
    (∀ x : Json, isPaged x = true ↔
      (isRecord x = true ∧
        isNumberField (getField x "total") = true ∧
        isNumberField (getField x "page") = true ∧
        isNumberField (getField x "pageSize") = true ∧
        isArrayField (getField x "items") = true)) ∧
    isPaged (Json.obj
      [("total", Json.num 1), ("page", Json.num 1),
       ("pageSize", Json.num 20), ("items", Json.arr [])]) = true ∧
    isPaged (Json.obj [("items", Json.arr [])]) = false := by
  refine ⟨fun x => ?_, by decide, by decide⟩
  by_cases hrec : isRecord x = true
  · simp [isPaged, hrec, Bool.and_eq_true, and_assoc]
  · simp only [Bool.not_eq_true] at hrec
    simp [isPaged, hrec]

/-- C4: `hasItems x` is true iff `x` is an object-like value whose
`items` field is an array, regardless of other fields; in particular
`hasItems {items:[1,2]} = true` and `hasItems {total:1} = false`. -/
theorem hasItems_characterization :
    (∀ x : Json, hasItems x = true ↔
      (isRecord x = true ∧ isArrayField (getField x "items") = true)) ∧
    hasItems (Json.obj [("items", Json.arr [Json.num 1, Json.num 2])]) = true ∧
    hasItems (Json.obj [("total", Json.num 1)]) = false := by
  refine ⟨fun x => ?_, by decide, by decide⟩
  simp [hasItems, Bool.and_eq_true]

/-- C5: `selectedIdList` splits on commas, parses each trimmed entry as
a base-10 integer, and keeps exactly the entries whose parsed value is
finite and strictly positive; in particular
`selectedIdList "1, 2, x, -3, 4" = [1, 2, 4]`. -/
theorem selectedIdList_spec :
    (∀ (s : String) (n : JSNum), n ∈ selectedIdList s ↔
      ((∃ entry ∈ splitOnComma s.toList, parseIntJS (jsTrim entry) = n) ∧
        isFiniteNum n = true ∧ numGt0 n = true)) ∧
    selectedIdList "1, 2, x, -3, 4" = [some 1, some 2, some 4] := by
  refine ⟨fun s n => ?_, by decide⟩
  simp only [selectedIdList, List.mem_filter, List.mem_map, Bool.and_eq_true]

/-- Instantiation of C5's membership characterization on a concrete
input. -/
theorem selectedIdList_spec_witness : some 7 ∈ selectedIdList "7" :=
  (selectedIdList_spec.1 "7" (some 7)).mpr (by decide)

/-- C6: when the action body passed to `run` throws, exactly one new
log block is prepended; it carries the `ERROR` marker and the error's
message text, the prior log is preserved intact after it, and the
error does not escape `run` (which returns an ordinary state with the
busy flag cleared). -/
theorem run_error_logs_block (title : String)
    (fn : ConsoleState → Except String (ConsoleState × ApiResult))
    (st : ConsoleState) (msg : String)
    (h : fn (runStart st) = .error msg) :
    run title fn st =
      { st with log := errorEntry title msg ++ st.log, busy := false } ∧
    strIncludes (errorEntry title msg) "ERROR" = true ∧
    strIncludes (errorEntry title msg) msg = true :=
  ⟨by simp only [run]; rw [h]; simp [runStart],
    errorEntry_has_error_marker title msg, errorEntry_has_msg title msg⟩

/-- Instantiation of C6 on a concrete throwing action. -/
theorem run_error_logs_block_witness :
    run "Health" (fun _ => .error "Failed to fetch") sampleState =
      { sampleState with
          log := errorEntry "Health" "Failed to fetch" ++ sampleState.log,
          busy := false } ∧
    strIncludes (errorEntry "Health" "Failed to fetch") "ERROR" = true ∧
    strIncludes (errorEntry "Health" "Failed to fetch") "Failed to fetch" = true :=
  run_error_logs_block "Health" _ sampleState "Failed to fetch" rfl

/-- C7: when the response declares a JSON content type but its body is
not well-formed JSON, `apiFetch` does not return a degraded envelope:
the decoding fault propagates to its caller as a thrown error. -/
theorem apiFetch_malformed_json_throws (parse : String → Option Json)
    (res : Response)
    (hct : strIncludes (res.contentType.getD "") "application/json" = true)
    (hp : parse res.bodyText = none) :
    apiFetch parse res = .error "SyntaxError: Unexpected token in JSON" := by
  simp [apiFetch, hct, hp]

/-- Instantiation of C7 on a concrete malformed-JSON response. -/
theorem apiFetch_malformed_json_throws_witness :
    apiFetch (fun _ => none) ⟨200, some "application/json", "not json"⟩ =
      .error "SyntaxError: Unexpected token in JSON" :=
  apiFetch_malformed_json_throws (fun _ => none)
    ⟨200, some "application/json", "not json"⟩ (by decide) rfl

/-- C8: for the Load Books and Search actions, when the shape guard
fails on the returned envelope (`ok` false, or `isPaged` / `hasItems`
false on the body), the full raw body is still formatted into the new
log block while the corresponding list state (`books`, `searchItems`)
is left unchanged. -/
theorem guard_failure_preserves_state (parse : String → Option Json)
    (res : Response) (st : ConsoleState) (title : String) (r : ApiResult)
    (h : apiFetch parse res = .ok r) :
    ((r.ok && isPaged r.body) = false →
      (run title (loadBooksAction parse res) st).books = st.books ∧
      (run title (loadBooksAction parse res) st).log =
        logEntry title r ++ st.log ∧
      strIncludes (logEntry title r) (formatBody r.body) = true) ∧
    ((r.ok && hasItems r.body) = false →
      (run title (searchAction parse res) st).searchItems = st.searchItems ∧
      (run title (searchAction parse res) st).log =
        logEntry title r ++ st.log ∧
      strIncludes (logEntry title r) (formatBody r.body) = true) := by
  constructor
  · intro hguard
    have hfn : loadBooksAction parse res (runStart st) = .ok (runStart st, r) := by
      simp [loadBooksAction, h, hguard]
      intro h1 h2
      rw [h1, h2] at hguard
      simp at hguard
    refine ⟨?_, ?_, logEntry_has_body title r⟩ <;>
      · simp only [run]
        rw [hfn]
        simp [appendLog, runStart]
  · intro hguard
    have hfn : searchAction parse res (runStart st) = .ok (runStart st, r) := by
      simp [searchAction, h, hguard]
      intro h1 h2
      rw [h1, h2] at hguard
      simp at hguard
    refine ⟨?_, ?_, logEntry_has_body title r⟩ <;>
      · simp only [run]
        rw [hfn]
        simp [appendLog, runStart]

/-- Instantiation of C8 on a concrete non-ok plain-text response. -/
theorem guard_failure_preserves_state_witness :
    (run "GET /api/books"
        (loadBooksAction (fun _ => some Json.null) ⟨500, none, "oops"⟩)
        sampleState).books = sampleState.books ∧
    (run "GET /api/search?q=..."
        (searchAction (fun _ => some Json.null) ⟨500, none, "oops"⟩)
        sampleState).searchItems = sampleState.searchItems :=
  ⟨((guard_failure_preserves_state (fun _ => some Json.null) ⟨500, none, "oops"⟩
      sampleState "GET /api/books" ⟨false, 500, Json.str "oops"⟩ rfl).1
      (by decide)).1,
   ((guard_failure_preserves_state (fun _ => some Json.null) ⟨500, none, "oops"⟩
      sampleState "GET /api/search?q=..." ⟨false, 500, Json.str "oops"⟩ rfl).2
      (by decide)).1⟩

/-- C9: the busy flag is raised when an action starts and is false
again once the action settles (`run` returns), on the success path and
the error path alike; and whenever the flag is raised every
action-triggering button's disabled condition is true, so no second
action can be started while one is in flight. -/
theorem busy_flag_discipline :
    (∀ st, (runStart st).busy = true) ∧
    (∀ title fn st, (run title fn st).busy = false) ∧
    (∀ st : ConsoleState, st.busy = true →
      healthDisabled st = true ∧ loginDisabled st = true ∧
      meDisabled st = true ∧ logoutDisabled st = true ∧
      loadBooksDisabled st = true ∧ uploadDisabled st = true ∧
      processOneDisabled st = true ∧ processSelectedDisabled st = true ∧
      searchGetDisabled st = true ∧ searchPostDisabled st = true ∧
      statsDisabled st = true) := by
  refine ⟨fun st => rfl, fun title fn st => ?_, fun st h => ?_⟩
  · cases hfn : fn (runStart st) with
    | ok p =>
      obtain ⟨st2, r⟩ := p
      simp only [run]
      rw [hfn]
    | error m =>
      simp only [run]
      rw [hfn]
  · simp [healthDisabled, loginDisabled, meDisabled, logoutDisabled,
      loadBooksDisabled, uploadDisabled, processOneDisabled,
      processSelectedDisabled, searchGetDisabled, searchPostDisabled,
      statsDisabled, h]

/-- Instantiation of C9 on concrete states and a concrete action. -/
theorem busy_flag_discipline_witness :
    (runStart sampleState).busy = true ∧
    (run "Health" (fun _ => .error "down") sampleState).busy = false ∧
    healthDisabled busyState = true ∧ searchGetDisabled busyState = true :=
  ⟨busy_flag_discipline.1 sampleState,
   busy_flag_discipline.2.1 "Health" (fun _ => .error "down") sampleState,
   (busy_flag_discipline.2.2 busyState rfl).1,
   (busy_flag_discipline.2.2 busyState rfl).2.2.2.2.2.2.2.2.1⟩

/-- C10 counterexample: the entry `"0abc"` begins with the valid
integer prefix `0` (`parseInt` yields `0`, not `NaN`), yet
`selectedIdList "0abc"` is empty — and likewise `"-3abc"` has the valid
integer prefix `-3` and is dropped — so the claim that every entry with
a valid integer prefix is kept is false. -/
theorem selectedIdList_keeps_prefix_cex :
    parseIntJS (jsTrim "0abc".toList) = some 0 ∧
    selectedIdList "0abc" = [] ∧
    parseIntJS (jsTrim "-3abc".toList) = some (-3) ∧
    selectedIdList "-3abc" = [] := by
  decide

/-- C10 (amended): any comma-separated entry whose trimmed text begins
with a valid integer prefix parsing to a strictly positive value is
kept, contributing that truncated prefix; in particular `"3abc"`
contributes `3` and `"2.5"` contributes `2`. -/
theorem selectedIdList_positive_prefix_kept :
    (∀ (s : String) (entry : List Char) (k : Int),
      entry ∈ splitOnComma s.toList →
      parseIntJS (jsTrim entry) = some k → 0 < k →
      some k ∈ selectedIdList s) ∧
    selectedIdList "3abc, 2.5" = [some 3, some 2] := by
  refine ⟨fun s entry k hmem hparse hpos => ?_, by decide⟩
  simp only [selectedIdList, List.mem_filter, List.mem_map]
  exact ⟨⟨entry, hmem, hparse⟩, by simp [isFiniteNum, numGt0, hpos]⟩

/-- Instantiation of the amended C10 on the concrete entry `"3abc"`. -/
theorem selectedIdList_positive_prefix_kept_witness :
    some 3 ∈ selectedIdList "3abc" :=
  selectedIdList_positive_prefix_kept.1 "3abc" "3abc".toList 3
    (by decide) (by decide) (by decide)

end Lib26
